import Mathlib

/-!
Verification of the Evania XP/streak backend (src/server.js) against its
specification. JavaScript numbers are modelled as exact rationals (`ℚ`);
local dates are modelled as integer day numbers (`ℤ`), so the whole-day
calendar difference of two dates is their difference in `ℤ`; timestamps are
integer milliseconds (`ℤ`).
-/

namespace Evania

/-- JS `Math.round` on the nonnegative values arising here: round half-up,
`⌊q + 1/2⌋` (src/server.js lines 331, 446, 542). -/
def roundHalfUp (q : ℚ) : ℤ := ⌊q + 1 / 2⌋

/-- `parseFloat((x).toFixed(2))` (src/server.js line 137) on the exact
decimal values arising here: round to two decimal places, half-up. -/
def round2 (q : ℚ) : ℚ := ((⌊q * 100 + 1 / 2⌋ : ℤ) : ℚ) / 100

/-- `computeLevel` (src/server.js lines 108-109):
`Math.floor(Math.sqrt(totalXP) / 2) + 1`. For a natural number `x`,
`⌊Real.sqrt x / 2⌋ = Nat.sqrt x / 2` (see `computeLevel_eq_floor_sqrt`). -/
def computeLevel (totalXP : ℕ) : ℕ := Nat.sqrt totalXP / 2 + 1

/-- `streakMultiplier` (src/server.js lines 133-138). The guard
`!streak || streak < 1` equals `streak < 1` on integers, since `!streak`
means `streak = 0`. `Math.floor(streak / 7)` is the real floor of the real
quotient, `⌊streak / 7⌋`. -/
def streakMultiplier (streak : ℤ) : ℚ :=
  if streak < 1 then 1
  else
    let perDay : ℚ := min (5 / 100 * (streak : ℚ)) (1 / 2)
    let band : ℚ := ((⌊(streak : ℚ) / 7⌋ : ℤ) : ℚ) * (1 / 10)
    round2 (1 + perDay + band)

/-- The per-user state mutated by completion events: the XP/streak columns
of the `users` table (src/db.js lines 24-30), date as an integer day. -/
structure User where
  total_xp : ℕ
  level : ℕ
  current_streak : ℕ
  longest_streak : ℕ
  last_active_local_date : Option ℤ
  avatar_tier : ℕ
deriving Repr, DecidableEq

/-- The user state created by the ensure-user middleware for a first-time
identity (src/server.js lines 167-183). -/
def freshUser : User :=
  { total_xp := 0, level := 1, current_streak := 0, longest_streak := 0,
    last_active_local_date := none, avatar_tier := 0 }

/-- `applyStreakProgress` (src/server.js lines 115-131), with `today`
passed explicitly. `dayjs(today).diff(dayjs(last), "day")` on two local
dates is their whole-day difference `today - last`. -/
def applyStreakProgress (u : User) (today : ℤ) : User :=
  let u1 :=
    match u.last_active_local_date with
    | none => { u with current_streak := 1 }
    | some last =>
      let diff := today - last
      if diff = 0 then u
      else if diff = 1 then { u with current_streak := u.current_streak + 1 }
      else { u with current_streak := 1 }
  { u1 with
    longest_streak := max u1.longest_streak u1.current_streak,
    last_active_local_date := some today }

/-- Result of one accepted completion event. -/
structure CompletionResult where
  user : User
  gainedXP : ℕ
  mult : ℚ
deriving Repr, DecidableEq

/-- The APPLIED step shared verbatim by POST /api/runs (src/server.js lines
327-338) and POST /api/routines/:id/log (lines 441-452): snapshot the
previous level, run the streak engine, compute the multiplier from the
post-update streak, award `Math.round(basePoints * mult)` XP, recompute the
level, and apply the avatar-tier rule. `basePoints` is a nonnegative
integer (quests are seeded with positive `base_points`, src/db.js), and the
multiplier is at least 1, so the rounded award is nonnegative and `toNat`
is faithful. -/
def applyCompletion (u : User) (today : ℤ) (basePoints : ℕ) : CompletionResult :=
  let prevLevel := u.level
  let u1 := applyStreakProgress u today
  let mult := streakMultiplier (u1.current_streak : ℤ)
  let gained := (roundHalfUp ((basePoints : ℚ) * mult)).toNat
  let xp := u1.total_xp + gained
  let lvl := computeLevel xp
  let tier :=
    if prevLevel < lvl ∧ lvl % 5 = 0 then u1.avatar_tier + 1 else u1.avatar_tier
  { user := { u1 with total_xp := xp, level := lvl, avatar_tier := tier },
    gainedXP := gained, mult := mult }

section Bridging

/-- Bridge justifying `computeLevel`: the source's
`Math.floor(Math.sqrt(totalXP) / 2)` — the real floor of the real square
root halved — equals `Nat.sqrt totalXP / 2` on natural inputs. -/
theorem computeLevel_eq_floor_sqrt (x : ℕ) :
    computeLevel x = ⌊Real.sqrt x / 2⌋₊ + 1 := by
  have h2 : ⌊Real.sqrt x / (2 : ℕ)⌋₊ = ⌊Real.sqrt x⌋₊ / 2 :=
    Nat.floor_div_nat (Real.sqrt x) 2
  have hs : ⌊Real.sqrt x⌋₊ = Nat.sqrt x := Real.nat_floor_real_sqrt_eq_nat_sqrt
  simp only [Nat.cast_ofNat] at h2
  rw [computeLevel, ← hs, ← h2]

end Bridging

/-! ## Claim theorems: streak engine, multiplier, level -/

/-- C1: the streak update applied on each completion event satisfies, for
every user state and date: if `lastActiveDate` is absent, `currentStreak`
becomes 1; if the whole-day difference between today and `lastActiveDate`
is 0, `currentStreak` is unchanged; if the difference is 1, `currentStreak`
increases by exactly 1; for any difference greater than 1 or negative,
`currentStreak` resets to 1; and `lastActiveDate` becomes today. -/
theorem streak_update_spec (u : User) (today : ℤ) :
    (u.last_active_local_date = none →
      (applyStreakProgress u today).current_streak = 1)
    ∧ (∀ last, u.last_active_local_date = some last →
        (today - last = 0 →
          (applyStreakProgress u today).current_streak = u.current_streak)
        ∧ (today - last = 1 →
          (applyStreakProgress u today).current_streak = u.current_streak + 1)
        ∧ (1 < today - last ∨ today - last < 0 →
          (applyStreakProgress u today).current_streak = 1))
    ∧ (applyStreakProgress u today).last_active_local_date = some today := by
  refine ⟨fun h => by simp [applyStreakProgress, h], fun last h => ⟨?_, ?_, ?_⟩, rfl⟩
  · intro h0
    simp [applyStreakProgress, h, h0]
  · intro h1
    have h0 : ¬ (today - last = 0) := by omega
    simp [applyStreakProgress, h, h0, h1]
  · intro hfar
    have h0 : ¬ (today - last = 0) := by omega
    have h1 : ¬ (today - last = 1) := by omega
    simp [applyStreakProgress, h, h0, h1]

/-- Witness for C1 at concrete inputs: a fresh user (absent
`lastActiveDate`) gets streak 1 and date 5; a user last active on day 4
with streak 2 completing on day 5 gets streak 3. -/
theorem streak_update_spec_witness :
    (applyStreakProgress freshUser 5).current_streak = 1
    ∧ (applyStreakProgress freshUser 5).last_active_local_date = some 5
    ∧ (applyStreakProgress
        { total_xp := 0, level := 1, current_streak := 2, longest_streak := 2,
          last_active_local_date := some 4, avatar_tier := 0 } 5).current_streak = 3 :=
  ⟨(streak_update_spec freshUser 5).1 rfl,
   (streak_update_spec freshUser 5).2.2,
   ((streak_update_spec
      { total_xp := 0, level := 1, current_streak := 2, longest_streak := 2,
        last_active_local_date := some 4, avatar_tier := 0 } 5).2.1 4 rfl).2.1
     (by decide)⟩

/-- C2: for every integer streak value, `streakMultiplier streak` returns
1.0 when `streak < 1`, and otherwise returns
`round2 (1 + min (0.05 * streak) 0.5 + ⌊streak / 7⌋ * 0.1)`, where `round2`
rounds to two decimal places half-up on the decimal representation. -/
theorem streakMultiplier_spec (streak : ℤ) :
    streakMultiplier streak =
      if streak < 1 then 1
      else round2 (1 + min (5 / 100 * (streak : ℚ)) (1 / 2)
        + ((⌊(streak : ℚ) / 7⌋ : ℤ) : ℚ) * (1 / 10)) := rfl

/-- C9: `computeLevel` is monotonic non-decreasing over all non-negative
integer `totalXP`, and `computeLevel 0 = 1`. -/
theorem computeLevel_monotone_and_base :
    (∀ a b : ℕ, a ≤ b → computeLevel a ≤ computeLevel b) ∧ computeLevel 0 = 1 := by
  constructor
  · intro a b h
    exact Nat.add_le_add_right (Nat.div_le_div_right (Nat.sqrt_le_sqrt h)) 1
  · rfl

/-- Witness for C9 at concrete inputs: `3 ≤ 11` and
`computeLevel 3 ≤ computeLevel 11`. -/
theorem computeLevel_monotone_witness :
    computeLevel 3 ≤ computeLevel 11 ∧ computeLevel 0 = 1 :=
  ⟨computeLevel_monotone_and_base.1 3 11 (by decide),
   computeLevel_monotone_and_base.2⟩

/-! ## Claim theorems: XP award and avatar tier (APPLIED step) -/

/-- Full evaluation of the claimed scenario: a fresh user completing a
quest with `basePoints = 10` on day 0. -/
theorem applyCompletion_fresh_eval :
    applyCompletion freshUser 0 10 =
      { user := { total_xp := 11, level := 2, current_streak := 1, longest_streak := 1,
                  last_active_local_date := some 0, avatar_tier := 0 },
        gainedXP := 11, mult := 105 / 100 } := by
  norm_num [applyCompletion, applyStreakProgress, freshUser, streakMultiplier, round2,
    roundHalfUp, computeLevel, min_def, CompletionResult.mk.injEq, User.mk.injEq]
  have ht : (11 : ℤ).toNat = 11 := rfl
  rw [ht]
  norm_num

/-- C3 counterexample: the claim's concrete scenario asserts the final
level is 1, but the code produces level 2. A fresh user (`totalXP = 0`,
first-ever completion, so `cooldownSeconds` is irrelevant) completing a
quest with `basePoints = 10` gains 11 XP, ending with `totalXP = 11` and
`computeLevel 11 = Nat.sqrt 11 / 2 + 1 = 3 / 2 + 1 = 2 ≠ 1`. -/
theorem xp_award_scenario_cex :
    (applyCompletion freshUser 0 10).user.level = 2
    ∧ (applyCompletion freshUser 0 10).user.level ≠ 1 := by
  rw [applyCompletion_fresh_eval]
  exact ⟨rfl, by decide⟩

/-- C3 (amended): for every completion, the XP awarded equals
`round(basePoints * multiplier)` rounded half-up, with the multiplier
computed from the streak value after the streak update; and the concrete
scenario (fresh user, `basePoints = 10`, first-ever completion) ends with
`currentStreak = 1`, multiplier 1.05, `gainedXP = 11`, `totalXP = 11`, and
level 2 (not 1 as the original claim stated: `⌊√11 / 2⌋ + 1 = 2`). -/
theorem xp_award_spec :
    (∀ (u : User) (today : ℤ) (basePoints : ℕ),
      (applyCompletion u today basePoints).gainedXP =
        (roundHalfUp ((basePoints : ℚ)
          * streakMultiplier ((applyStreakProgress u today).current_streak : ℤ))).toNat)
    ∧ (applyCompletion freshUser 0 10).user.current_streak = 1
    ∧ (applyCompletion freshUser 0 10).mult = 105 / 100
    ∧ (applyCompletion freshUser 0 10).gainedXP = 11
    ∧ (applyCompletion freshUser 0 10).user.total_xp = 11
    ∧ (applyCompletion freshUser 0 10).user.level = 2 := by
  refine ⟨fun _ _ _ => rfl, ?_, ?_, ?_, ?_, ?_⟩ <;> rw [applyCompletion_fresh_eval]

/-- C8: on any single completion event, `avatarTier` increases by exactly 1
if the new level is strictly greater than the previous level and the new
level is divisible by 5, and is unchanged otherwise; in particular it
increases by at most 1 per event. -/
theorem avatar_tier_spec (u : User) (today : ℤ) (basePoints : ℕ) :
    ((applyCompletion u today basePoints).user.avatar_tier =
      if u.level < (applyCompletion u today basePoints).user.level
          ∧ (applyCompletion u today basePoints).user.level % 5 = 0
        then u.avatar_tier + 1 else u.avatar_tier)
    ∧ (applyCompletion u today basePoints).user.avatar_tier ≤ u.avatar_tier + 1 := by
  have htier : (applyStreakProgress u today).avatar_tier = u.avatar_tier := by
    rcases h : u.last_active_local_date with _ | last
    · simp [applyStreakProgress, h]
    · simp only [applyStreakProgress, h]
      split_ifs <;> rfl
  constructor
  · simp only [applyCompletion]
    rw [htier]
  · simp only [applyCompletion]
    split_ifs <;> (rw [htier]; try omega)

/-! ## Claim theorems: longest-streak invariant over event sequences -/

/-- State carried across completion events for one user with one routine:
the user row plus the `local_date` column of the user's `routine_logs` rows
for that routine (src/db.js). -/
structure LogState where
  user : User
  logs : List ℤ
deriving Repr, DecidableEq

/-- POST /api/routines/:id/log (src/server.js lines 428-458): count
today's logs for (routine, user); if the count has reached `daily_target`,
reject with status 400 before touching any state (returns `false` and the
unchanged state); otherwise run the shared APPLIED step and append a log
row with today's local date. -/
def routineLogStep (s : LogState) (dailyTarget basePoints : ℕ) (today : ℤ) :
    LogState × Bool :=
  if dailyTarget ≤ s.logs.count today then (s, false)
  else
    ({ user := (applyCompletion s.user today basePoints).user,
       logs := today :: s.logs }, true)

/-- A completion event against the engine: an accepted quest run, or a
routine-log attempt (which the daily-target gate may reject). A quest run
rejected by the cooldown gate leaves the state unchanged (src/server.js
line 322 returns before any mutation), so it needs no event. -/
inductive Event where
  | quest (today : ℤ) (basePoints : ℕ)
  | routine (today : ℤ) (dailyTarget basePoints : ℕ)
deriving Repr, DecidableEq

/-- One event against the completion processor. -/
def stepEvent (s : LogState) : Event → LogState
  | .quest t b => { s with user := (applyCompletion s.user t b).user }
  | .routine t dt b => (routineLogStep s dt b t).1

/-- A sequence of completion events, applied in order. -/
def runEvents (s : LogState) (evs : List Event) : LogState :=
  evs.foldl stepEvent s

/-- The streak engine re-establishes `currentStreak ≤ longestStreak`
unconditionally: src/server.js line 129 sets
`longest_streak = max(longest_streak, current_streak)`. -/
theorem applyStreak_streak_le_longest (u : User) (t : ℤ) :
    (applyStreakProgress u t).current_streak ≤ (applyStreakProgress u t).longest_streak :=
  le_max_right _ _

/-- The APPLIED step preserves the streak fields of the streak engine's
output, so the invariant holds after every accepted completion. -/
theorem applyCompletion_streak_le_longest (u : User) (t : ℤ) (b : ℕ) :
    (applyCompletion u t b).user.current_streak
      ≤ (applyCompletion u t b).user.longest_streak :=
  applyStreak_streak_le_longest u t

/-- One event preserves the invariant (rejection leaves state unchanged;
acceptance re-establishes it). -/
theorem stepEvent_streak_le_longest (s : LogState) (e : Event)
    (h : s.user.current_streak ≤ s.user.longest_streak) :
    (stepEvent s e).user.current_streak ≤ (stepEvent s e).user.longest_streak := by
  cases e with
  | quest t b => exact applyCompletion_streak_le_longest s.user t b
  | routine t dt b =>
    simp only [stepEvent, routineLogStep]
    split_ifs with hc
    · exact h
    · exact applyCompletion_streak_le_longest s.user t b

/-- C4: after every state update performed by a completion event (quest or
routine path), `longestStreak ≥ currentStreak`, for all event sequences
starting from any state where this holds. -/
theorem longest_streak_invariant (s : LogState) (evs : List Event)
    (h : s.user.current_streak ≤ s.user.longest_streak) :
    (runEvents s evs).user.current_streak ≤ (runEvents s evs).user.longest_streak := by
  induction evs generalizing s with
  | nil => exact h
  | cons e rest ih =>
    exact ih (stepEvent s e) (stepEvent_streak_le_longest s e h)

/-- Witness for C4 at a concrete input: a fresh user, a quest completion on
day 0, then a routine-log attempt on day 1 with daily target 2. -/
theorem longest_streak_invariant_witness :
    (runEvents { user := freshUser, logs := [] }
        [Event.quest 0 10, Event.routine 1 2 6]).user.current_streak
      ≤ (runEvents { user := freshUser, logs := [] }
        [Event.quest 0 10, Event.routine 1 2 6]).user.longest_streak :=
  longest_streak_invariant { user := freshUser, logs := [] }
    [Event.quest 0 10, Event.routine 1 2 6] (by decide)

/-! ## Claim theorems: cooldown gate -/

/-- Cooldown gate of POST /api/runs (src/server.js lines 314-325): when
the quest has `cooldown_sec > 0` and the user has a most recent Run for it,
an attempt with `nowMs - lastMs < cooldown_sec * 1000` is rejected with
status 429 and `retryAfterSec = Math.ceil((cooldown_sec * 1000 - (nowMs -
lastMs)) / 1000)`. Returns `some retryAfterSec` when rejected, `none` when
the attempt passes the gate. -/
def cooldownCheck (cooldownSec : ℕ) (lastCreatedAtMs : Option ℤ) (nowMs : ℤ) :
    Option ℤ :=
  if 0 < cooldownSec then
    match lastCreatedAtMs with
    | none => none
    | some lastMs =>
      if nowMs - lastMs < (cooldownSec : ℤ) * 1000 then
        some ⌈((((cooldownSec : ℤ) * 1000 - (nowMs - lastMs)) : ℤ) : ℚ) / 1000⌉
      else none
  else none

/-- C5: for a quest with `cooldownSeconds > 0`, a completion attempt whose
elapsed time since the user's most recent Run is strictly less than the
cooldown (in milliseconds: `nowMs - lastMs < cooldownSeconds * 1000`) is
rejected with the remaining wait ceiling-rounded to whole seconds; for
`cooldownSeconds = 3600`, an attempt 1800 s after a completion at time 0 is
rejected with `retryAfterSec = 1800` and an attempt at 3601 s is accepted;
a quest with `cooldownSeconds = 0`, or with no prior Run, is never rejected
for cooldown. -/
theorem cooldown_spec :
    (∀ (cd : ℕ) (lastMs nowMs : ℤ), 0 < cd →
      ((cooldownCheck cd (some lastMs) nowMs).isSome ↔
        nowMs - lastMs < (cd : ℤ) * 1000))
    ∧ (∀ (cd : ℕ) (lastMs nowMs : ℤ), 0 < cd → nowMs - lastMs < (cd : ℤ) * 1000 →
      cooldownCheck cd (some lastMs) nowMs =
        some ⌈((((cd : ℤ) * 1000 - (nowMs - lastMs)) : ℤ) : ℚ) / 1000⌉)
    ∧ (∀ (lastMs nowMs : ℤ), cooldownCheck 0 (some lastMs) nowMs = none)
    ∧ (∀ (cd : ℕ) (nowMs : ℤ), cooldownCheck cd none nowMs = none)
    ∧ cooldownCheck 3600 (some 0) 1800000 = some 1800
    ∧ cooldownCheck 3600 (some 0) 3601000 = none := by
  refine ⟨?_, ?_, fun lastMs nowMs => rfl, ?_, ?_, ?_⟩
  · intro cd lastMs nowMs hcd
    simp only [cooldownCheck, if_pos hcd]
    split_ifs with hlt <;> simp [hlt]
  · intro cd lastMs nowMs hcd hlt
    simp [cooldownCheck, if_pos hcd, hlt]
  · intro cd nowMs
    simp only [cooldownCheck]
    split_ifs <;> rfl
  · simp only [cooldownCheck, if_pos (by norm_num : (0 : ℕ) < 3600)]
    norm_num
  · simp only [cooldownCheck]
    norm_num

/-- Witness for C5 at a concrete input: with a 3600 s cooldown and a run
1800000 ms ago, the gate rejects. -/
theorem cooldown_spec_witness :
    (cooldownCheck 3600 (some 0) 1800000).isSome :=
  (cooldown_spec.1 3600 0 1800000 (by norm_num)).mpr (by norm_num)

/-! ## Claim theorems: routine daily-target gate -/

/-- C6: a routine log attempt is rejected exactly when the count of
existing RoutineLogs for that routine, user and today's local date is at
least the routine's `dailyTarget`; on rejection the state is unchanged (no
user update, no log row); a routine with `dailyTarget = 2` accepts exactly
2 logs on a date with no prior logs and rejects the 3rd; and on a new local
date with no logs the count starts over, so the next attempt is accepted
again. -/
theorem routine_gate_spec :
    (∀ (s : LogState) (dt b : ℕ) (t : ℤ),
      ((routineLogStep s dt b t).2 = false ↔ dt ≤ s.logs.count t)
      ∧ (dt ≤ s.logs.count t → routineLogStep s dt b t = (s, false)))
    ∧ (∀ (s : LogState) (b : ℕ) (t : ℤ), s.logs.count t = 0 →
      (routineLogStep s 2 b t).2 = true
      ∧ (routineLogStep ((routineLogStep s 2 b t).1) 2 b t).2 = true
      ∧ (routineLogStep
          ((routineLogStep ((routineLogStep s 2 b t).1) 2 b t).1) 2 b t).2 = false
      ∧ (∀ t2 : ℤ,
          ((routineLogStep ((routineLogStep s 2 b t).1) 2 b t).1).logs.count t2 = 0 →
          (routineLogStep
            ((routineLogStep ((routineLogStep s 2 b t).1) 2 b t).1) 2 b t2).2 = true)) := by
  constructor
  · intro s dt b t
    constructor
    · simp only [routineLogStep]
      split_ifs with hc <;> simp [hc]
    · intro hc
      simp [routineLogStep, hc]
  · intro s b t h0
    have e1 : routineLogStep s 2 b t =
        ({ user := (applyCompletion s.user t b).user, logs := t :: s.logs }, true) := by
      simp [routineLogStep, h0]
    have c1 : (t :: s.logs).count t = 1 := by simp [List.count_cons, h0]
    have e2 : routineLogStep
        { user := (applyCompletion s.user t b).user, logs := t :: s.logs } 2 b t =
        ({ user := (applyCompletion (applyCompletion s.user t b).user t b).user,
           logs := t :: t :: s.logs }, true) := by
      simp [routineLogStep, c1]
    have c2 : (t :: t :: s.logs).count t = 2 := by simp [List.count_cons, h0]
    refine ⟨by simp only [e1], ?_, ?_, ?_⟩
    · simp only [e1, e2]
    · simp only [e1, e2]
      simp [routineLogStep, c2]
    · intro t2 hc2
      simp only [e1, e2] at hc2 ⊢
      simp [routineLogStep, hc2]

/-- Witness for C6 at a concrete input: a fresh user with no logs, routine
with `dailyTarget = 2`, `basePoints = 6`, on day 0: first log accepted. -/
theorem routine_gate_witness :
    (routineLogStep { user := freshUser, logs := [] } 2 6 0).2 = true :=
  (routine_gate_spec.2 { user := freshUser, logs := [] } 6 0 (by decide)).1

/-! ## Claim theorems: weekly insight aggregator -/

/-- Risk banding of GET /api/insights/weekly (src/server.js lines
544-546): default `"Red"`, `"Green"` at `completionRate >= 70`, else
`"Amber"` at `>= 40`. -/
def riskBand (completionRate : ℕ) : String :=
  if 70 ≤ completionRate then "Green"
  else if 40 ≤ completionRate then "Amber"
  else "Red"

/-- Completion statistics of the weekly report. -/
structure WeeklyReport where
  dailyTargetTotal : ℕ
  daysMetTarget : ℕ
  completionRate : ℕ
  band : String
deriving Repr, DecidableEq

/-- Completion-rate aggregation of GET /api/insights/weekly (src/server.js
lines 523-546): `targets` are the `daily_target` values of the user's
active routines; `logsPerDay` are the per-day RoutineLog counts over the
dense 7-day window (missing dates default to 0). A day counts toward
`daysMetTarget` iff `dailyTargetTotal > 0` and its log count reaches
`dailyTargetTotal`; `completionRate = Math.round(daysMetTarget / 7 * 100)`
when `dailyTargetTotal > 0`, else 0. Quest runs affect only the XP/series
totals, not the completion rate, so they are not inputs here. -/
def weeklyInsights (targets : List ℕ) (logsPerDay : List ℕ) : WeeklyReport :=
  let dailyTargetTotal := targets.sum
  let daysMetTarget :=
    logsPerDay.countP (fun n => decide (0 < dailyTargetTotal ∧ dailyTargetTotal ≤ n))
  let rate :=
    if 0 < dailyTargetTotal
      then (roundHalfUp ((daysMetTarget : ℚ) / 7 * 100)).toNat else 0
  { dailyTargetTotal := dailyTargetTotal, daysMetTarget := daysMetTarget,
    completionRate := rate, band := riskBand rate }

/-- C7: the weekly aggregator computes
`completionRate = round(daysMetTarget / 7 * 100)` when the sum of active
routines' daily targets is positive and 0 otherwise; the risk band is
Green iff `completionRate >= 70`, Amber iff `40 <= completionRate < 70`,
else Red; a window with zero activity yields rate 0 and band Red; and a
user with no active routines yields rate 0 regardless of quest activity. -/
theorem weekly_spec :
    (∀ (targets logsPerDay : List ℕ),
      (weeklyInsights targets logsPerDay).completionRate =
        if 0 < targets.sum
          then (roundHalfUp
            (((weeklyInsights targets logsPerDay).daysMetTarget : ℚ) / 7 * 100)).toNat
          else 0)
    ∧ (∀ (targets logsPerDay : List ℕ),
      ((weeklyInsights targets logsPerDay).band = "Green" ↔
        70 ≤ (weeklyInsights targets logsPerDay).completionRate)
      ∧ ((weeklyInsights targets logsPerDay).band = "Amber" ↔
        (40 ≤ (weeklyInsights targets logsPerDay).completionRate
          ∧ (weeklyInsights targets logsPerDay).completionRate < 70))
      ∧ ((weeklyInsights targets logsPerDay).band = "Red" ↔
        (weeklyInsights targets logsPerDay).completionRate < 40))
    ∧ (∀ targets : List ℕ,
      (weeklyInsights targets (List.replicate 7 0)).completionRate = 0
      ∧ (weeklyInsights targets (List.replicate 7 0)).band = "Red")
    ∧ (∀ logsPerDay : List ℕ, (weeklyInsights [] logsPerDay).completionRate = 0) := by
  have hband : ∀ r : ℕ, (riskBand r = "Green" ↔ 70 ≤ r)
      ∧ (riskBand r = "Amber" ↔ (40 ≤ r ∧ r < 70)) ∧ (riskBand r = "Red" ↔ r < 40) := by
    intro r
    unfold riskBand
    split_ifs with h70 h40 <;>
      refine ⟨?_, ?_, ?_⟩ <;> simp <;> omega
  have hzero : ∀ targets : List ℕ,
      (weeklyInsights targets (List.replicate 7 0)).completionRate = 0 := by
    intro targets
    simp only [weeklyInsights]
    have hcount : (List.replicate 7 0).countP
        (fun n => decide (0 < targets.sum ∧ targets.sum ≤ n)) = 0 := by
      rcases Nat.eq_zero_or_pos targets.sum with h | h
      · simp [List.countP_eq_zero, h]
      · simp only [List.countP_eq_zero]
        intro a ha
        simp only [List.eq_of_mem_replicate ha]
        simp
        omega
    rw [hcount]
    split_ifs with h
    · norm_num [roundHalfUp]
    · rfl
  refine ⟨fun targets logsPerDay => rfl, ?_, ?_, ?_⟩
  · intro targets logsPerDay
    exact hband _
  · intro targets
    refine ⟨hzero targets, ?_⟩
    have : (weeklyInsights targets (List.replicate 7 0)).band
        = riskBand (weeklyInsights targets (List.replicate 7 0)).completionRate := rfl
    rw [this, hzero targets]
    rfl
  · intro logsPerDay
    simp [weeklyInsights]

/-! ## Claim theorems: routine creation defaults -/

/-- A request-body field as seen by `Number(...)` in POST /api/routines
(src/server.js lines 415-421): absent (`undefined`, so the destructuring
default on line 417 applies), a value coercing to the number `q`, or a
value coercing to NaN (for example a non-numeric string). -/
inductive ReqVal where
  | absent
  | num (q : ℚ)
  | nan
deriving Repr, DecidableEq

/-- The `daily_target` stored by `sql.insertRoutine.run(..,
Number(dailyTarget) || 1)` (src/server.js line 421) after the
`dailyTarget = 1` destructuring default: `0` and `NaN` are falsy, so they
fall back to 1; every other number is stored as-is. -/
def storedDailyTarget : ReqVal → ℚ
  | .absent => 1
  | .nan => 1
  | .num q => if q = 0 then 1 else q

/-- The `base_points` stored by `Number(basePoints) || 6` (src/server.js
line 421) after the `basePoints = 6` destructuring default. -/
def storedBasePoints : ReqVal → ℚ
  | .absent => 6
  | .nan => 6
  | .num q => if q = 0 then 6 else q

/-- C10 counterexample: the claim asserts every stored `daily_target` is
positive, but a request with `dailyTarget = -1` passes the `|| 1` guard
(-1 is truthy) and is stored as -1, which is not positive; likewise
`basePoints = -1` is stored as -1. -/
theorem routine_defaults_cex :
    storedDailyTarget (ReqVal.num (-1)) = -1
    ∧ ¬ (0 < storedDailyTarget (ReqVal.num (-1)))
    ∧ storedBasePoints (ReqVal.num (-1)) = -1 := by
  refine ⟨?_, ?_, ?_⟩ <;> norm_num [storedDailyTarget, storedBasePoints]

/-- C10 (amended): a create-routine request whose `dailyTarget` is 0,
absent, or non-numeric stores `daily_target = 1`, and one whose
`basePoints` is 0, absent, or non-numeric stores `base_points = 6`, so no
request can produce a routine with `daily_target` 0 (or `base_points` 0);
but a negative numeric value is stored as-is, so the stored values are
nonzero rather than positive. -/
theorem routine_defaults_spec :
    (∀ v, storedDailyTarget v ≠ 0 ∧ storedBasePoints v ≠ 0)
    ∧ storedDailyTarget ReqVal.absent = 1
    ∧ storedDailyTarget (ReqVal.num 0) = 1
    ∧ storedDailyTarget ReqVal.nan = 1
    ∧ storedBasePoints ReqVal.absent = 6
    ∧ storedBasePoints (ReqVal.num 0) = 6
    ∧ storedBasePoints ReqVal.nan = 6 := by
  refine ⟨?_, rfl, by norm_num [storedDailyTarget], rfl, rfl,
    by norm_num [storedBasePoints], rfl⟩
  intro v
  cases v with
  | absent => exact ⟨one_ne_zero, by norm_num [storedDailyTarget, storedBasePoints]⟩
  | nan => exact ⟨one_ne_zero, by norm_num [storedDailyTarget, storedBasePoints]⟩
  | num q =>
    constructor
    · simp only [storedDailyTarget]
      split_ifs with h
      · exact one_ne_zero
      · exact h
    · simp only [storedBasePoints]
      split_ifs with h
      · norm_num
      · exact h

end Evania
